import Mathlib

/-!
Verification development for the LM_BOX_5 camera-gesture arcade games.

The definitions below are a shallow embedding of the Python sources:
  * `src/gui/gui.py`       — balloon game (`init_balloons`, `start_balloons_game`)
                              and Pong (`init_pong_game`, `start_pong_game`,
                              `end_pong_game`);
  * `src/gui/dino_game.py` — runner game (`Dino.update`, `run_dino_game`,
                              `PoseDetector.stop`, `get_camera_frame`, `get_state`);
  * `src/models/mediapipe_hand_tracking.py` — `HandTrackingDynamic.findPosition`.

Conventions: Python ints are `Int`; Python floats are exact rationals `ℚ`
(every claim proved below is insensitive to float rounding: the relevant
code paths clamp, floor, or compare, so the rational model is faithful for
the stated properties); Python `int(x)` is truncation toward zero
(`ratTrunc`); Python `//` on ints is floor division (`Int.fdiv`).
-/

/-- Python `int(q)`: truncation toward zero (T-division of numerator by
denominator), applied by the source wherever a float is turned into a
pixel coordinate, e.g. `int(finger_center[0] * self.scale_x_cam)`. -/
def ratTrunc (q : ℚ) : Int := q.num.tdiv (q.den : Int)

/-- A pygame `Rect`: integer origin and size, as used for balloons,
fingertip pins, the Pong ball, the paddles and the play field. -/
structure Rect where
  x : Int
  y : Int
  w : Int
  h : Int
deriving DecidableEq, Repr

def Rect.left (r : Rect) : Int := r.x

def Rect.right (r : Rect) : Int := r.x + r.w

def Rect.top (r : Rect) : Int := r.y

def Rect.bottom (r : Rect) : Int := r.y + r.h

def Rect.centerx (r : Rect) : Int := r.x + r.w.fdiv 2

def Rect.centery (r : Rect) : Int := r.y + r.h.fdiv 2

/-- pygame `Rect.colliderect`: true when the two rectangles overlap. -/
def Rect.colliderect (a b : Rect) : Bool :=
  decide (a.x < b.x + b.w) && decide (a.x + a.w > b.x) &&
  decide (a.y < b.y + b.h) && decide (a.y + a.h > b.y)

/-! ## Balloon engine (`gui.py`, `init_balloons` / `start_balloons_game`) -/

/-- One balloon spawn record, as built by `Game.init_balloons`
(gui.py:906-916): a rect, an upward speed, an appearance time, the combo
flag, a numeric type (0 plain, 1/2/3 for the combo tiers taken from the
image filename), and the popped flag. -/
structure Balloon where
  rect : Rect
  speed : Int
  time : Int
  isCombo : Bool
  type : Nat
  isPopped : Bool
deriving DecidableEq, Repr

/-- `self.max_wave_time = 20` (gui.py:803). -/
def maxWaveTime : Int := 20

/-- The off-field test of gui.py:1279:
`balloon["rect"].top <= self.start_y_cam + balloon["rect"].height`. -/
def Balloon.offField (startYCam : Int) (b : Balloon) : Bool :=
  decide (b.rect.top ≤ startYCam + b.rect.h)

/-- `balloon["rect"].move_ip(0, -balloon["speed"])` (gui.py:1290). -/
def Balloon.moveUp (b : Balloon) : Balloon :=
  { b with rect := { b.rect with y := b.rect.y - b.speed } }

/-- The fingertip-overlap test of gui.py:1297-1298: the inner
`for finger_rect in fingers_centers_rects` loop pops on the first
colliding fingertip rect. -/
def overlapsFinger (r : Rect) (fingers : List Rect) : Bool :=
  fingers.any (fun f => r.colliderect f)

/-- The score increment applied on a fingertip pop (gui.py:1299-1306):
type 1 gives +2, type 2 gives +3, type 3 gives +5, anything else +1. -/
def popIncrement (t : Nat) : Int :=
  if t = 1 then 2 else if t = 2 then 3 else if t = 3 then 5 else 1

/-- The per-tick balloon loop of gui.py:1270-1310, over the current wave
list and the current score.  For each balloon in order: skip it when its
appearance time has not come (`continue`) or it is already popped
(`continue`); if it is off-field, mark it popped, decrement the score
(floored at 0) when it is plain, and stop processing the list for this
tick (the source `break` at gui.py:1287); otherwise move it up and, when
it overlaps a tracked fingertip rect, mark it popped and add the
type-dependent increment (clamped with `max(0, ...)`). -/
def processBalloons (startYCam : Int) (elapsed : Int) (fingers : List Rect) :
    List Balloon → Int → List Balloon × Int
  | [], score => ([], score)
  | b :: rest, score =>
    if elapsed < b.time then
      let r := processBalloons startYCam elapsed fingers rest score
      (b :: r.1, r.2)
    else if b.isPopped then
      let r := processBalloons startYCam elapsed fingers rest score
      (b :: r.1, r.2)
    else if b.offField startYCam then
      ({ b with isPopped := true } :: rest,
        if !b.isCombo then max 0 (score - 1) else score)
    else
      let b1 := b.moveUp
      if overlapsFinger b1.rect fingers then
        let r := processBalloons startYCam elapsed fingers rest
          (max 0 (score + popIncrement b1.type))
        ({ b1 with isPopped := true } :: r.1, r.2)
      else
        let r := processBalloons startYCam elapsed fingers rest score
        (b1 :: r.1, r.2)

/-- The wave-end test of gui.py:1313:
`len(balloons) == 0 or elapsed_time > self.max_wave_time`. -/
def waveEnds (balloons : List Balloon) (elapsed : Int) : Bool :=
  balloons.length == 0 || decide (elapsed > maxWaveTime)

/-- All balloons of a wave are resolved (each one popped). -/
def allResolved (balloons : List Balloon) : Bool :=
  balloons.all (·.isPopped)

/-- A balloon is skipped by the tick loop: its appearance time has not
come, or it is already popped (the two `continue`s at gui.py:1272-1276). -/
def Balloon.skipped (elapsed : Int) (b : Balloon) : Bool :=
  decide (elapsed < b.time) || b.isPopped

/-! ## Coordinate mapper (`gui.py`, `init_balloons_game` / `start_balloons_game`) -/

/-- The x coordinate mapping of gui.py:1157-1158:
`int(finger_center[0] * self.scale_x_cam) + self.translation_x_cam`,
where `self.translation_x_cam = int(self.start_x_cam * self.scale_x_cam)`
(gui.py:790) and `self.scale_x_cam` is the screen-to-background ratio
(gui.py:784).  `startX` is the source-rect origin, `scaleX` the scale. -/
def camMapX (scaleX : ℚ) (startX : Int) (x : Int) : Int :=
  ratTrunc ((x : ℚ) * scaleX) + ratTrunc ((startX : ℚ) * scaleX)

/-- The y coordinate mapping of gui.py:1159 (same form as `camMapX`). -/
def camMapY (scaleY : ℚ) (startY : Int) (y : Int) : Int :=
  ratTrunc ((y : ℚ) * scaleY) + ratTrunc ((startY : ℚ) * scaleY)

/-- The full detector-space-to-screen-space point mapping used by the
balloon game for fingertip centers (gui.py:1153-1177). -/
def camMap (scaleX scaleY : ℚ) (startX startY : Int) (p : Int × Int) : Int × Int :=
  (camMapX scaleX startX p.1, camMapY scaleY startY p.2)

/-! ## Score mutations shared across the engines (claim C1) -/

/-- One step of the runner score accrual, `score += 0.1`
(dino_game.py:769), paired with the speed update of dino_game.py:776-783:
when `int(score)` is a positive multiple of 100 (checked again on the
copy `milestone_score`) and the speed is below 20, add 0.5. -/
def dinoTick (st : ℚ × ℚ) : ℚ × ℚ :=
  let score := st.1 + 1 / 10
  if ratTrunc score % 100 = 0 ∧ ratTrunc score > 0 then
    let milestone := ratTrunc score
    if milestone % 100 = 0 ∧ st.2 < 20 then (score, st.2 + 1 / 2)
    else (score, st.2)
  else (score, st.2)

/-! ## Hand side labelling (`mediapipe_hand_tracking.py`, `findPosition`) -/

/-- One entry of `hands_data` as returned by
`HandTrackingDynamic.findPosition` (mediapipe_hand_tracking.py:68-92):
the landmark pixel list, the bounding-box center, and the side label.
The unfilled default is `([], (-1, -1), "nth")` (the source stores `-1`
for the landmark field of an unfilled slot; no caller reads it, since
every caller first checks the side label). -/
structure HandData where
  lms : List (Int × Int)
  center : Int × Int
  side : String
deriving DecidableEq, Repr

def defaultHandData : HandData := ⟨[], (-1, -1), "nth"⟩

/-- `max_num_hands` of the tracker used by Pong (default 2). -/
def maxHands : Nat := 2

/-- Python `min` over the landmark x (or y) list; the landmark list of a
detected hand is never empty (mediapipe emits 21 landmarks). -/
def listMin : List Int → Int
  | [] => -1
  | x :: xs => xs.foldl min x

def listMax : List Int → Int
  | [] => -1
  | x :: xs => xs.foldl max x

/-- `center_x = (xmin + xmax) // 2` (mediapipe_hand_tracking.py:85). -/
def handCenterX (lms : List (Int × Int)) : Int :=
  (listMin (lms.map Prod.fst) + listMax (lms.map Prod.fst)).fdiv 2

/-- `center_y = (ymin + ymax) // 2` (mediapipe_hand_tracking.py:86). -/
def handCenterY (lms : List (Int × Int)) : Int :=
  (listMin (lms.map Prod.snd) + listMax (lms.map Prod.snd)).fdiv 2

/-- The per-hand body of the `findPosition` loop
(mediapipe_hand_tracking.py:85-92): with `side = size_frame // 2`, a hand
whose bounding-box center x is strictly below `side` fills slot 0 with
label `"left"`, one strictly above fills slot 1 with label `"right"`,
and one exactly at `side` fills neither slot. -/
def assignHand (sizeFrame : Int) (slots : HandData × HandData)
    (lms : List (Int × Int)) : HandData × HandData :=
  let cX := handCenterX lms
  let cY := handCenterY lms
  let side := sizeFrame.fdiv 2
  if cX < side then (⟨lms, (cX, cY), "left"⟩, slots.2)
  else if cX > side then (slots.1, ⟨lms, (cX, cY), "right"⟩)
  else slots

/-- `HandTrackingDynamic.findPosition` (mediapipe_hand_tracking.py:54-103):
starting from two default slots, fold the per-hand assignment over at
most `maxHands` detected hands. -/
def findPosition (sizeFrame : Int) (hands : List (List (Int × Int))) :
    HandData × HandData :=
  (hands.take maxHands).foldl (assignHand sizeFrame)
    (defaultHandData, defaultHandData)

/-! ## Pong engine (`gui.py`, `init_pong_game` / `start_pong_game` / `end_pong_game`) -/

/-- `self.ball_raduis = 10` (gui.py:1454). -/
def ballRaduis : Int := 10

/-- `self.paddle_width = 10` (gui.py:1461). -/
def paddleWidth : Int := 10

/-- `self.paddle_height = 80` (gui.py:1462). -/
def paddleHeight : Int := 80

/-- `self.speed_increment = 3` (gui.py:1466). -/
def speedIncrement : Int := 3

/-- `self.max_score = 1` (gui.py:1599). -/
def maxScore : Int := 1

/-- The mutable Pong round state of `start_pong_game`. -/
structure PongState where
  ballX : Int
  ballY : Int
  ballSpeedX : Int
  ballSpeedY : Int
  paddle1Y : Int
  paddle2Y : Int
  paddle1X : Int
  paddle2X : Int
  player1Score : Int
  player2Score : Int
deriving DecidableEq, Repr

/-- The paddle clamp of gui.py:1826-1831 / 1842-1847: a paddle pushed
above `play_field_rect.height` snaps to `height + 10`; one pushed below
`bottom - 75` snaps to `bottom - paddle_height - 10 - 10`. -/
def clampPaddle (field : Rect) (y : Int) : Int :=
  if y < field.h then field.h + 10
  else if y > field.bottom - 75 then field.bottom - paddleHeight - 10 - 10
  else y

/-- Mapping of a hand center y into play-field space (gui.py:1819-1822):
`int(center_y * self.scale_y_play_field) + self.translation_y_play_field`. -/
def mapHandY (scaleY : ℚ) (transY : Int) (cy : Int) : Int :=
  ratTrunc ((cy : ℚ) * scaleY) + transY

/-- The paddle update of gui.py:1816-1847: paddle 1 follows slot 1 of the
hands data only when its side label is `"left"` and its landmark list is
nonempty; paddle 2 follows slot 2 only when labelled `"right"`; otherwise
the paddle keeps its position. -/
def pongPaddleUpdate (field : Rect) (scaleY : ℚ) (transY : Int)
    (slot1 slot2 : HandData) (s : PongState) : PongState :=
  let s1 :=
    if slot1.side = "left" ∧ slot1.lms ≠ [] then
      { s with paddle1Y :=
          clampPaddle field (mapHandY scaleY transY slot1.center.2 - paddleHeight.fdiv 2) }
    else s
  if slot2.side = "right" ∧ slot2.lms ≠ [] then
    { s1 with paddle2Y :=
        clampPaddle field (mapHandY scaleY transY slot2.center.2 - paddleHeight.fdiv 2) }
  else s1

/-- gui.py:1770-1783: the periodic speed ramp — when the interval timer
has fired (`rampNow`), both speed components grow by `speed_increment`,
keeping their signs. -/
def pongRamp (rampNow : Bool) (s : PongState) : PongState :=
  if rampNow then
    { s with
      ballSpeedX := s.ballSpeedX +
        (if s.ballSpeedX > 0 then speedIncrement else -speedIncrement),
      ballSpeedY := s.ballSpeedY +
        (if s.ballSpeedY > 0 then speedIncrement else -speedIncrement) }
  else s

/-- gui.py:1850-1851: `ball_x += ball_speed_x; ball_y += ball_speed_y`. -/
def pongIntegrate (s : PongState) : PongState :=
  { s with ballX := s.ballX + s.ballSpeedX, ballY := s.ballY + s.ballSpeedY }

/-- gui.py:1854-1859: top/bottom bounce — negate the vertical speed.
(The top test compares against `play_field_rect.height`, exactly as the
source does.) -/
def pongVerticalBounce (field : Rect) (s : PongState) : PongState :=
  if s.ballY ≤ field.h + ballRaduis then { s with ballSpeedY := -s.ballSpeedY }
  else if s.ballY ≥ field.bottom - ballRaduis then { s with ballSpeedY := -s.ballSpeedY }
  else s

/-- gui.py:1862-1882: paddle collision — negate the horizontal speed and
place the ball flush against the struck paddle face. -/
def pongPaddleBounce (s : PongState) : PongState :=
  let ballRect : Rect := ⟨s.ballX, s.ballY, ballRaduis, ballRaduis⟩
  let paddleRect1 : Rect := ⟨s.paddle1X, s.paddle1Y, paddleWidth, paddleHeight⟩
  let paddleRect2 : Rect := ⟨s.paddle2X, s.paddle2Y, paddleWidth, paddleHeight⟩
  if paddleRect1.colliderect ballRect then
    { s with ballSpeedX := -s.ballSpeedX,
             ballX := s.paddle1X + paddleWidth + ballRaduis }
  else if paddleRect2.colliderect ballRect then
    { s with ballSpeedX := -s.ballSpeedX, ballX := s.paddle2X - ballRaduis }
  else s

/-- gui.py:1885-1901: left/right exit — award the opposing player a
point, recenter the ball and redraw both speed components from
`random.choice([-7, 7])` (`vxNeg`/`vyNeg` are the two draws). -/
def pongGoals (field : Rect) (vxNeg vyNeg : Bool) (s : PongState) : PongState :=
  if s.ballX ≤ field.left + ballRaduis then
    { s with player2Score := s.player2Score + 1,
             ballX := field.centerx, ballY := field.centery,
             ballSpeedX := if vxNeg then -7 else 7,
             ballSpeedY := if vyNeg then -7 else 7 }
  else if s.ballX ≥ field.right - ballRaduis then
    { s with player1Score := s.player1Score + 1,
             ballX := field.centerx, ballY := field.centery,
             ballSpeedX := if vxNeg then -7 else 7,
             ballSpeedY := if vyNeg then -7 else 7 }
  else s

/-- The ball phase of one `start_pong_game` loop iteration
(gui.py:1770-1901), after the paddles have been moved.  `rampNow` is the
speed-ramp timer test `current_time - round_start_time >
self.speed_increment_interval`; `vxNeg`/`vyNeg` are the two
`random.choice([-7, 7])` draws used when a point is scored.  In source
order: speed ramp, position integration, top/bottom bounce (negate the
vertical speed), paddle collision (negate the horizontal speed and place
the ball flush against the paddle face), then the left/right exits
(award the point, recenter the ball, redraw both speed components from
{-7, 7}). -/
def pongBallStep (field : Rect) (rampNow vxNeg vyNeg : Bool)
    (s : PongState) : PongState :=
  pongGoals field vxNeg vyNeg
    (pongPaddleBounce (pongVerticalBounce field (pongIntegrate (pongRamp rampNow s))))

/-- One full `start_pong_game` loop iteration: paddle update from the
current hands data, then the ball phase. -/
def pongTick (field : Rect) (scaleY : ℚ) (transY : Int)
    (slot1 slot2 : HandData) (rampNow vxNeg vyNeg : Bool)
    (s : PongState) : PongState :=
  pongBallStep field rampNow vxNeg vyNeg
    (pongPaddleUpdate field scaleY transY slot1 slot2 s)

/-- The round-over test of gui.py:2077-2080:
`player1_score == max_score or player2_score == max_score`. -/
def pongRoundOver (s : PongState) : Bool :=
  s.player1Score == maxScore || s.player2Score == maxScore

/-- The winner line of `end_pong_game` (gui.py:2095): `"Player 1"` when
player 1 holds `max_score`, else `"Player 2"`. -/
def pongWinner (s : PongState) : String :=
  if s.player1Score == maxScore then "Player 1" else "Player 2"

/-- The game-over headline rendered by gui.py:2143-2144: `f"{winner} wins"`. -/
def pongWinnerText (s : PongState) : String :=
  pongWinner s ++ " wins"

/-! ## Runner engine (`dino_game.py`) -/

/-- The runner character state mutated by `Dino.update`
(dino_game.py:283-341): vertical position, resting baseline, vertical
velocity, and the airborne/ducking flags.  The pygame `rect.y` is stored
exactly (as a rational); the landing clamp at dino_game.py:309-312 makes
the theorems below independent of the pixel rounding pygame applies. -/
structure DinoState where
  y : ℚ
  posYInitial : ℚ
  velocityY : ℚ
  jumping : Bool
  ducking : Bool
deriving DecidableEq, Repr

/-- `self.gravity = 0.6` (dino_game.py:286), as an exact rational. -/
def dinoGravity : ℚ := 3 / 5

/-- `Dino.update` (dino_game.py:294-341).  A jump input while not airborne
sets `velocity_y = -15` and the airborne flag; while airborne, gravity is
added to the velocity and the velocity to the position every call, and
reaching the baseline (`rect.y >= pos_y_initial`) clamps the position to
the baseline and clears the flag.  Otherwise a duck input sets the duck
posture at `pos_y_initial + 30`, and the running branch resets the
posture at `pos_y_initial`. -/
def Dino.update (jumpInput duckInput : Bool) (s : DinoState) : DinoState :=
  let s1 :=
    if jumpInput && !s.jumping then { s with jumping := true, velocityY := -15 }
    else s
  if s1.jumping then
    let v := s1.velocityY + dinoGravity
    let y := s1.y + v
    if y ≥ s1.posYInitial then
      { s1 with y := s1.posYInitial, jumping := false, velocityY := 0 }
    else { s1 with y := y, velocityY := v }
  else if duckInput then { s1 with ducking := true, y := s1.posYInitial + 30 }
  else { s1 with ducking := false, y := s1.posYInitial }

/-- `Dino.update` with the baseline factored out and every quantity
scaled by 10 over `Int` (position offset `c = 10 * (y - pos_y_initial)`,
velocity `velocityY = 10 * velocity_y`, gravity 0.6 ↦ 6, jump velocity
-15 ↦ -150, duck offset 30 ↦ 300).  All dynamic quantities of the source
are multiples of 0.1, so this is an exact mirror of `Dino.update`; it
exists so the 49-tick flight can be computed by `decide`.
`dinoEmbedTen` maps it back to the real state, and
`dino_update_embedTen` below proves the two updates agree. -/
structure DinoOffsetTen where
  c : Int
  velocityY : Int
  jumping : Bool
  ducking : Bool
deriving DecidableEq, Repr

def dinoOffsetUpdateTen (jumpInput duckInput : Bool) (t : DinoOffsetTen) : DinoOffsetTen :=
  let t1 :=
    if jumpInput && !t.jumping then { t with jumping := true, velocityY := -150 }
    else t
  if t1.jumping then
    let v := t1.velocityY + 6
    let c := t1.c + v
    if c ≥ 0 then { t1 with c := 0, jumping := false, velocityY := 0 }
    else { t1 with c := c, velocityY := v }
  else if duckInput then { t1 with ducking := true, c := 300 }
  else { t1 with ducking := false, c := 0 }

def dinoEmbedTen (y0 : ℚ) (t : DinoOffsetTen) : DinoState :=
  ⟨y0 + (t.c : ℚ) / 10, y0, (t.velocityY : ℚ) / 10, t.jumping, t.ducking⟩

/-! ## Capture/detection worker (`dino_game.py`, `PoseDetector`) -/

/-- The camera handle (an external `cv2.VideoCapture`): spec section 6
gives it `read` and `release`; a released handle fails every `read`. -/
structure Cam where
  released : Bool
deriving DecidableEq, Repr

/-- `read` on the camera handle succeeds exactly while it is unreleased. -/
def camReadSucceeds (c : Cam) : Bool := !c.released

/-- The `PoseDetector` fields touched by `stop`, `get_state` and
`get_camera_frame` (dino_game.py:14-241): the loop flag, the
camera-working flag, the latest published frame (`current_frame`), and
the latest jump/duck detections. -/
structure DetectorState where
  running : Bool
  cameraWorking : Bool
  currentFrame : Option Nat
  jumpDetected : Bool
  duckDetected : Bool
deriving DecidableEq, Repr

/-- `PoseDetector.stop` (dino_game.py:197-212): clear the loop flag,
destroy the OpenCV windows (cosmetic), and clear `camera_working`.  The
source comment is explicit that the camera handle is NOT released
("This doesn't release the camera, just marks it as unavailable for this
detector"), so the handle is returned untouched. -/
def PoseDetector.stop (s : DetectorState) (c : Cam) : DetectorState × Cam :=
  ({ s with running := false, cameraWorking := false }, c)

/-- `PoseDetector.get_state` (dino_game.py:214-219): `(False, False)`
when the camera is not working, else the latest detections. -/
def PoseDetector.getState (s : DetectorState) : Bool × Bool :=
  if !s.cameraWorking then (false, false)
  else (s.jumpDetected, s.duckDetected)

/-- `PoseDetector.get_camera_frame` (dino_game.py:221-241): `None` when
the camera is not working; else the stored frame, falling back to one
direct `read` on the handle when no frame is stored yet. -/
def PoseDetector.getCameraFrame (s : DetectorState) (c : Cam) : Option Nat :=
  if !s.cameraWorking then none
  else
    match s.currentFrame with
    | some f => some f
    | none => if camReadSucceeds c then some 0 else none

/-! ## Helper lemmas -/

theorem ratTrunc_intCast (n : Int) : ratTrunc ((n : ℚ)) = n := by
  simp [ratTrunc, Rat.num_intCast, Rat.den_intCast]

/-- Balloons whose turn has not come are copied unchanged by the tick
loop, and the score threads through them untouched. -/
theorem processBalloons_append_skipped
    (startYCam elapsed : Int) (fingers : List Rect) (pre l : List Balloon)
    (score : Int) (hpre : ∀ p ∈ pre, p.skipped elapsed = true) :
    processBalloons startYCam elapsed fingers (pre ++ l) score =
      (pre ++ (processBalloons startYCam elapsed fingers l score).1,
        (processBalloons startYCam elapsed fingers l score).2) := by
  induction pre with
  | nil => simp
  | cons p pre ih =>
    have hp := hpre p (List.mem_cons_self _ _)
    have hrest : ∀ q ∈ pre, q.skipped elapsed = true := fun q hq =>
      hpre q (List.mem_cons_of_mem _ hq)
    rw [Balloon.skipped, Bool.or_eq_true] at hp
    rcases hp with hp | hp
    · simp only [List.cons_append, processBalloons, of_decide_eq_true hp, if_pos]
      rw [List.append_eq, ih hrest]
    · by_cases ht : elapsed < p.time
      · simp only [List.cons_append, processBalloons, ht, if_pos]
        rw [List.append_eq, ih hrest]
      · simp only [List.cons_append, processBalloons, ht, if_false, hp, if_true,
          if_neg, ite_false]
        rw [List.append_eq, ih hrest]

theorem processBalloons_score_nonneg
    (startYCam elapsed : Int) (fingers : List Rect) (l : List Balloon)
    (score : Int) (h : 0 ≤ score) :
    0 ≤ (processBalloons startYCam elapsed fingers l score).2 := by
  induction l generalizing score with
  | nil => simpa [processBalloons] using h
  | cons b rest ih =>
    simp only [processBalloons]
    split
    · exact ih score h
    · split
      · exact ih score h
      · split
        · split
          · positivity
          · exact h
        · split
          · exact ih _ (by positivity)
          · exact ih score h


/-! ## Claim theorems -/

/-- C3 (code bug): a balloon wave in which every spawned balloon has been
popped well before the 20-second budget does NOT end at that point: the
wave-end test of gui.py:1313 checks `len(balloons) == 0`, but popped
balloons are only flagged (`is_popped = True`), never removed from the
wave list, so the test stays false and the wave runs until
`elapsed_time > max_wave_time`.  Concretely, with all five balloons of a
wave popped at 5 elapsed seconds the wave does not end. -/
theorem balloon_wave_all_popped_does_not_end :
    allResolved
        (List.replicate 5 ⟨⟨300, 500, 100, 100⟩, 5, 0, false, 0, true⟩) = true ∧
    (5 : Int) ≤ maxWaveTime ∧
    waveEnds
        (List.replicate 5 ⟨⟨300, 500, 100, 100⟩, 5, 0, false, 0, true⟩) 5 = false := by
  decide

/-- C9 (code bug): the runner speed is NOT raised exactly once per
100-point milestone.  The test of dino_game.py:777-780 fires on every
tick while `int(score)` is a positive multiple of 100, i.e. on 10
consecutive ticks of a single milestone (score 100.0 .. 100.9): starting
from score 100 and speed 10, the next two ticks each add 0.5 although no
new milestone is crossed (`int(score)` stays 100). -/
theorem dino_speed_double_increment_in_one_milestone :
    (dinoTick (100, 10)).2 = 21 / 2 ∧
    (dinoTick (dinoTick (100, 10))).2 = 11 ∧
    ratTrunc (dinoTick (100, 10)).1 = 100 ∧
    ratTrunc (dinoTick (dinoTick (100, 10))).1 = 100 := by
  have h1 : Int.tdiv 1001 10 = 100 := by decide
  have h2 : Int.tdiv 501 5 = 100 := by decide
  have t1 : dinoTick (100, 10) = (1001 / 10, 21 / 2) := by
    norm_num [dinoTick, ratTrunc, h1]
  have t2 : dinoTick (1001 / 10, 21 / 2) = (501 / 5, 11) := by
    norm_num [dinoTick, ratTrunc, h2]
  rw [t1, t2]
  norm_num [ratTrunc, h1, h2]

/-- C6 (counterexample): the coordinate mapping actually used by the code
(`int(x * scale) + int(origin * scale)`, gui.py:784-791 and 1153-1177)
does not carry the source-rect corners exactly onto the destination-rect
corners for arbitrary positive-size rectangles.  With scale 1/2 (source
width 1, destination width 1/2 > 0, destination origin at 1 * (1/2)),
the right corner x = 1 of the source lands at 0, not at the exact
destination right corner (1 + 1) * (1/2) = 1. -/
theorem cam_corner_map_not_exact :
    (0 : ℚ) < 1 ∧ (0 : ℚ) < 1 * (1 / 2) ∧
    ((camMapX (1 / 2) 1 1 : Int) : ℚ) ≠ ((1 : ℚ) + 1) * (1 / 2) := by
  refine ⟨by norm_num, by norm_num, ?_⟩
  have ht : Int.tdiv 1 2 = 0 := by decide
  norm_num [camMapX, ratTrunc, ht]

theorem ratTrunc_zero : ratTrunc 0 = 0 := by
  decide

/-- C6 (amended): the corner property holds up to the `int` truncation
the code applies: whenever the scale times the source origin and the
scale times the source size are whole numbers (in particular for integer
scale factors), the mapping carries each of the four corners of the
source rectangle (origin 0, size w × h, placed at (ox, oy)) exactly onto
the corresponding corner of the destination rectangle (origin
(ox·sx, oy·sy), size (w·sx) × (h·sy)). -/
theorem cam_corner_map_exact_of_integral
    (sx sy : ℚ) (ox oy w h a b c d : Int)
    (hw : 0 < w) (hh : 0 < h)
    (hox : (ox : ℚ) * sx = (a : ℚ)) (hwx : (w : ℚ) * sx = (b : ℚ))
    (hoy : (oy : ℚ) * sy = (c : ℚ)) (hhy : (h : ℚ) * sy = (d : ℚ)) :
    ((camMapX sx ox 0 : Int) : ℚ) = (ox : ℚ) * sx ∧
    ((camMapY sy oy 0 : Int) : ℚ) = (oy : ℚ) * sy ∧
    ((camMapX sx ox w : Int) : ℚ) = ((ox : ℚ) + (w : ℚ)) * sx ∧
    ((camMapY sy oy h : Int) : ℚ) = ((oy : ℚ) + (h : ℚ)) * sy := by
  have hx0 : camMapX sx ox 0 = a := by
    simp [camMapX, hox, ratTrunc_intCast, ratTrunc_zero]
  have hy0 : camMapY sy oy 0 = c := by
    simp [camMapY, hoy, ratTrunc_intCast, ratTrunc_zero]
  have hxw : camMapX sx ox w = b + a := by
    simp [camMapX, hox, hwx, ratTrunc_intCast]
  have hyh : camMapY sy oy h = d + c := by
    simp [camMapY, hoy, hhy, ratTrunc_intCast]
  refine ⟨?_, ?_, ?_, ?_⟩
  · rw [hx0, hox]
  · rw [hy0, hoy]
  · rw [hxw]; push_cast; rw [← hox, ← hwx]; ring
  · rw [hyh]; push_cast; rw [← hoy, ← hhy]; ring

/-- C6 (witness): the amended corner property at scale factors 2 and 3,
origin (1, 2), size 3 × 4. -/
theorem cam_corner_map_exact_witness :
    ((camMapX 2 1 0 : Int) : ℚ) = (1 : ℚ) * 2 ∧
    ((camMapY 3 2 0 : Int) : ℚ) = (2 : ℚ) * 3 ∧
    ((camMapX 2 1 3 : Int) : ℚ) = ((1 : ℚ) + 3) * 2 ∧
    ((camMapY 3 2 4 : Int) : ℚ) = ((2 : ℚ) + 4) * 3 :=
  cam_corner_map_exact_of_integral 2 3 1 2 3 4 2 6 6 12
    (by norm_num) (by norm_num) (by norm_num) (by norm_num) (by norm_num) (by norm_num)

/-- C7 (counterexample): `PoseDetector.stop` does not release the camera
handle: starting from a running detector with an open camera, after
`stop()` the handle is still unreleased and a subsequent `read` on it
still succeeds — contradicting the claim that the handle is released and
reads fail.  (The source is explicit: "This doesn't release the camera,
just marks it as unavailable for this detector", dino_game.py:211.) -/
theorem pose_stop_does_not_release_camera :
    (PoseDetector.stop ⟨true, true, some 0, false, false⟩ ⟨false⟩).2.released = false ∧
    camReadSucceeds (PoseDetector.stop ⟨true, true, some 0, false, false⟩ ⟨false⟩).2 = true := by
  decide

/-- C7 (amended): after `stop()` returns, no further detection snapshots
or camera frames are published to the game loop — the run flag is
cleared (the capture loop exits at its next iteration test), the
camera-working flag is cleared, `get_camera_frame` returns `None` and
`get_state` returns `(False, False)` — but the camera handle itself is
deliberately left unreleased (it may be shared with the GUI). -/
theorem pose_stop_halts_publication (s : DetectorState) (c : Cam) :
    (PoseDetector.stop s c).1.running = false ∧
    (PoseDetector.stop s c).1.cameraWorking = false ∧
    PoseDetector.getCameraFrame (PoseDetector.stop s c).1 (PoseDetector.stop s c).2 = none ∧
    PoseDetector.getState (PoseDetector.stop s c).1 = (false, false) ∧
    (PoseDetector.stop s c).2 = c := by
  simp [PoseDetector.stop, PoseDetector.getCameraFrame, PoseDetector.getState]

theorem pongPaddleUpdate_scores (field : Rect) (scaleY : ℚ) (transY : Int)
    (slot1 slot2 : HandData) (s : PongState) :
    (pongPaddleUpdate field scaleY transY slot1 slot2 s).player1Score = s.player1Score ∧
    (pongPaddleUpdate field scaleY transY slot1 slot2 s).player2Score = s.player2Score := by
  simp only [pongPaddleUpdate]
  split_ifs <;> simp

theorem pongRamp_scores (rampNow : Bool) (s : PongState) :
    (pongRamp rampNow s).player1Score = s.player1Score ∧
    (pongRamp rampNow s).player2Score = s.player2Score := by
  rw [pongRamp]; split_ifs <;> exact ⟨rfl, rfl⟩

theorem pongIntegrate_scores (s : PongState) :
    (pongIntegrate s).player1Score = s.player1Score ∧
    (pongIntegrate s).player2Score = s.player2Score :=
  ⟨rfl, rfl⟩

theorem pongVerticalBounce_scores (field : Rect) (s : PongState) :
    (pongVerticalBounce field s).player1Score = s.player1Score ∧
    (pongVerticalBounce field s).player2Score = s.player2Score := by
  rw [pongVerticalBounce]; split_ifs <;> exact ⟨rfl, rfl⟩

theorem pongPaddleBounce_scores (s : PongState) :
    (pongPaddleBounce s).player1Score = s.player1Score ∧
    (pongPaddleBounce s).player2Score = s.player2Score := by
  simp only [pongPaddleBounce]
  split_ifs <;> exact ⟨rfl, rfl⟩

theorem pongGoals_scores (field : Rect) (vxNeg vyNeg : Bool) (s : PongState) :
    ((pongGoals field vxNeg vyNeg s).player1Score = s.player1Score ∨
      (pongGoals field vxNeg vyNeg s).player1Score = s.player1Score + 1) ∧
    ((pongGoals field vxNeg vyNeg s).player2Score = s.player2Score ∨
      (pongGoals field vxNeg vyNeg s).player2Score = s.player2Score + 1) := by
  rw [pongGoals]; split_ifs <;> simp

theorem pongBallStep_scores (field : Rect) (rampNow vxNeg vyNeg : Bool) (s : PongState) :
    ((pongBallStep field rampNow vxNeg vyNeg s).player1Score = s.player1Score ∨
      (pongBallStep field rampNow vxNeg vyNeg s).player1Score = s.player1Score + 1) ∧
    ((pongBallStep field rampNow vxNeg vyNeg s).player2Score = s.player2Score ∨
      (pongBallStep field rampNow vxNeg vyNeg s).player2Score = s.player2Score + 1) := by
  rw [pongBallStep]
  have h1 := pongRamp_scores rampNow s
  have h2 := pongIntegrate_scores (pongRamp rampNow s)
  have h3 := pongVerticalBounce_scores field (pongIntegrate (pongRamp rampNow s))
  have h4 := pongPaddleBounce_scores
    (pongVerticalBounce field (pongIntegrate (pongRamp rampNow s)))
  have h5 := pongGoals_scores field vxNeg vyNeg
    (pongPaddleBounce (pongVerticalBounce field (pongIntegrate (pongRamp rampNow s))))
  constructor
  · rcases h5.1 with h | h <;> rw [h, h4.1, h3.1, h2.1, h1.1] <;> omega
  · rcases h5.2 with h | h <;> rw [h, h4.2, h3.2, h2.2, h1.2] <;> omega

/-- C1: no score in any of the three engines is ever observed negative.
Every balloon-score mutation of the per-tick loop is wrapped in
`max(0, ...)` (gui.py:1283, 1300-1306), the Pong scores only ever gain
`+= 1` (gui.py:1887, 1896) from their 0 initialisation, and the runner
score only ever gains `+= 0.1` (dino_game.py:769) from 0: starting from
any non-negative score, each engine tick leaves the score non-negative. -/
theorem score_never_negative :
    (∀ (startYCam elapsed : Int) (fingers : List Rect) (l : List Balloon) (score : Int),
        0 ≤ score → 0 ≤ (processBalloons startYCam elapsed fingers l score).2) ∧
    (∀ (field : Rect) (scaleY : ℚ) (transY : Int) (slot1 slot2 : HandData)
        (rampNow vxNeg vyNeg : Bool) (s : PongState),
        0 ≤ s.player1Score → 0 ≤ s.player2Score →
        0 ≤ (pongTick field scaleY transY slot1 slot2 rampNow vxNeg vyNeg s).player1Score ∧
        0 ≤ (pongTick field scaleY transY slot1 slot2 rampNow vxNeg vyNeg s).player2Score) ∧
    (∀ st : ℚ × ℚ, 0 ≤ st.1 → 0 ≤ (dinoTick st).1) := by
  refine ⟨processBalloons_score_nonneg, ?_, ?_⟩
  · intro field scaleY transY slot1 slot2 rampNow vxNeg vyNeg s h1 h2
    have hp := pongPaddleUpdate_scores field scaleY transY slot1 slot2 s
    have hb := pongBallStep_scores field rampNow vxNeg vyNeg
      (pongPaddleUpdate field scaleY transY slot1 slot2 s)
    rw [pongTick]
    constructor
    · rcases hb.1 with h | h <;> rw [h, hp.1] <;> omega
    · rcases hb.2 with h | h <;> rw [h, hp.2] <;> omega
  · intro st h
    have : (dinoTick st).1 = st.1 + 1 / 10 := by
      simp only [dinoTick]
      split_ifs <;> rfl
    rw [this]
    positivity

/-- C1 (witness): each conjunct applied at a concrete input. -/
theorem score_never_negative_witness :
    0 ≤ (processBalloons 0 10 [⟨500, 500, 20, 20⟩]
          [⟨⟨200, 50, 100, 100⟩, 5, 0, false, 0, false⟩] 0).2 ∧
    0 ≤ (pongTick ⟨100, 100, 600, 400⟩ 1 0 defaultHandData defaultHandData
          false true false
          ⟨110, 300, -7, 7, 450, 450, 110, 580, 0, 0⟩).player1Score ∧
    0 ≤ (dinoTick ((0 : ℚ), 10)).1 :=
  ⟨score_never_negative.1 0 10 [⟨500, 500, 20, 20⟩]
      [⟨⟨200, 50, 100, 100⟩, 5, 0, false, 0, false⟩] 0 le_rfl,
    (score_never_negative.2.1 ⟨100, 100, 600, 400⟩ 1 0 defaultHandData defaultHandData
      false true false ⟨110, 300, -7, 7, 450, 450, 110, 580, 0, 0⟩
      (by decide) (by decide)).1,
    score_never_negative.2.2 ((0 : ℚ), 10) le_rfl⟩

/-- C5: a balloon that reaches the top of the camera-overlay area
unpopped (the first such balloon the tick loop reaches, all earlier
balloons being pending or already popped) is marked popped, the balloons
after it are left untouched for this tick, and the score changes only if
the balloon is plain: a plain balloon decrements the score by exactly 1
unless it is already 0 (then it stays 0), while an unpopped combo
balloon leaving the field leaves the score unchanged (gui.py:1279-1287). -/
theorem balloon_offfield_plain_decrement
    (startYCam elapsed : Int) (fingers : List Rect) (pre rest : List Balloon)
    (b : Balloon) (score : Int)
    (hpre : ∀ p ∈ pre, p.skipped elapsed = true)
    (hactive : b.skipped elapsed = false)
    (hoff : b.offField startYCam = true) :
    processBalloons startYCam elapsed fingers (pre ++ b :: rest) score =
      (pre ++ { b with isPopped := true } :: rest,
        if !b.isCombo then max 0 (score - 1) else score) ∧
    (b.isCombo = false → 0 < score →
      (processBalloons startYCam elapsed fingers (pre ++ b :: rest) score).2 = score - 1) ∧
    (b.isCombo = false → score = 0 →
      (processBalloons startYCam elapsed fingers (pre ++ b :: rest) score).2 = 0) ∧
    (b.isCombo = true →
      (processBalloons startYCam elapsed fingers (pre ++ b :: rest) score).2 = score) := by
  rw [Balloon.skipped, Bool.or_eq_false_iff] at hactive
  obtain ⟨ht, hp⟩ := hactive
  have ht2 : ¬ elapsed < b.time := of_decide_eq_false ht
  have hb : processBalloons startYCam elapsed fingers (b :: rest) score =
      ({ b with isPopped := true } :: rest,
        if !b.isCombo then max 0 (score - 1) else score) := by
    simp only [processBalloons, ht2, if_false, hp, Bool.false_eq_true, hoff, if_true]
  have hmain : processBalloons startYCam elapsed fingers (pre ++ b :: rest) score =
      (pre ++ { b with isPopped := true } :: rest,
        if !b.isCombo then max 0 (score - 1) else score) := by
    rw [processBalloons_append_skipped _ _ _ _ _ _ hpre, hb]
  refine ⟨hmain, ?_, ?_, ?_⟩
  · intro hc hs
    rw [hmain]
    simp only [hc, Bool.not_false, if_true]
    omega
  · intro hc hs
    rw [hmain]
    simp only [hc, Bool.not_false, if_true]
    omega
  · intro hc
    rw [hmain]
    simp [hc]

/-- C5 (witness): a plain balloon at the overlay top behind one
still-pending balloon, at score 5: the tick pops it and the score drops
to 4, the pending balloon staying untouched. -/
theorem balloon_offfield_plain_decrement_witness :
    processBalloons 0 10 [⟨500, 500, 20, 20⟩]
        [⟨⟨0, 600, 100, 100⟩, 5, 15, false, 0, false⟩,
         ⟨⟨300, 80, 100, 100⟩, 5, 0, false, 0, false⟩] 5 =
      ([⟨⟨0, 600, 100, 100⟩, 5, 15, false, 0, false⟩,
        ⟨⟨300, 80, 100, 100⟩, 5, 0, false, 0, true⟩], 4) :=
  ((balloon_offfield_plain_decrement 0 10 [⟨500, 500, 20, 20⟩]
      [⟨⟨0, 600, 100, 100⟩, 5, 15, false, 0, false⟩] []
      ⟨⟨300, 80, 100, 100⟩, 5, 0, false, 0, false⟩ 5
      (by decide) (by decide) (by decide)).1).trans (by decide)

/-- C4 (counterexample): it is NOT true that every balloon overlapping a
tracked fingertip rect during a tick gets popped that tick.  The
off-field branch at gui.py:1287 ends the balloon loop with `break`, so
when an earlier balloon in the list exits off-field, a later balloon that
overlaps a fingertip (both before and after its pending move) is left
unpopped and the score is not incremented for it: in the state below the
tick ends with the second balloon unpopped and the score changed only by
the miss (5 to 4). -/
theorem balloon_overlap_pop_deferred :
    overlapsFinger (⟨450, 450, 100, 100⟩ : Rect) [⟨500, 500, 20, 20⟩] = true ∧
    overlapsFinger (Balloon.moveUp ⟨⟨450, 450, 100, 100⟩, 10, 0, false, 0, false⟩).rect
        [⟨500, 500, 20, 20⟩] = true ∧
    processBalloons 0 10 [⟨500, 500, 20, 20⟩]
        [⟨⟨200, 50, 100, 100⟩, 5, 0, false, 0, false⟩,
         ⟨⟨450, 450, 100, 100⟩, 10, 0, false, 0, false⟩] 5 =
      ([⟨⟨200, 50, 100, 100⟩, 5, 0, false, 0, true⟩,
        ⟨⟨450, 450, 100, 100⟩, 10, 0, false, 0, false⟩], 4) := by
  decide

/-- C4 (amended): every balloon the tick loop actually reaches (all
earlier balloons pending or popped, none off-field) that overlaps a
tracked fingertip rect after its move is marked popped, and the score is
incremented by the type-dependent amount `max(0, score + inc)` with
inc = +1 for a plain balloon (type 0) and +2/+3/+5 for combo tiers
1/2/3; in particular a tier-2 pop adds exactly 3 to a non-negative
score.  Balloons after an off-field exit are only processed on a later
tick (gui.py:1287). -/
theorem balloon_overlap_pop_increment
    (startYCam elapsed : Int) (fingers : List Rect) (pre rest : List Balloon)
    (b : Balloon) (score : Int)
    (hpre : ∀ p ∈ pre, p.skipped elapsed = true)
    (hactive : b.skipped elapsed = false)
    (hon : b.offField startYCam = false)
    (hoverlap : overlapsFinger b.moveUp.rect fingers = true) :
    (processBalloons startYCam elapsed fingers (pre ++ b :: rest) score).1.get? pre.length
        = some { b.moveUp with isPopped := true } ∧
    (processBalloons startYCam elapsed fingers (pre ++ [b]) score).2
        = max 0 (score + popIncrement b.type) ∧
    (b.type = 2 → 0 ≤ score →
      (processBalloons startYCam elapsed fingers (pre ++ [b]) score).2 = score + 3) := by
  rw [Balloon.skipped, Bool.or_eq_false_iff] at hactive
  obtain ⟨ht, hp⟩ := hactive
  have ht2 : ¬ elapsed < b.time := of_decide_eq_false ht
  have htype : b.moveUp.type = b.type := rfl
  have hb : ∀ l : List Balloon, processBalloons startYCam elapsed fingers (b :: l) score =
      ({ b.moveUp with isPopped := true } ::
          (processBalloons startYCam elapsed fingers l
            (max 0 (score + popIncrement b.type))).1,
        (processBalloons startYCam elapsed fingers l
            (max 0 (score + popIncrement b.type))).2) := by
    intro l
    simp only [processBalloons, ht2, if_false, hp, Bool.false_eq_true,
      hon, htype, hoverlap, if_true]
  refine ⟨?_, ?_, ?_⟩
  · rw [processBalloons_append_skipped _ _ _ _ _ _ hpre, hb rest]
    simp only [List.get?_eq_getElem?]
    rw [List.getElem?_append_right le_rfl]
    simp
  · rw [processBalloons_append_skipped _ _ _ _ _ _ hpre, hb []]
    simp [processBalloons]
  · intro htp hs
    rw [processBalloons_append_skipped _ _ _ _ _ _ hpre, hb []]
    simp only [processBalloons, htp, popIncrement]
    norm_num
    omega

/-- C4 (witness): the amended pop rule at a tier-2 combo balloon behind
one pending balloon, at score 5: the balloon ends the tick popped and
moved, and the score becomes 5 + 3 = 8. -/
theorem balloon_overlap_pop_increment_witness :
    processBalloons 0 10 [⟨500, 500, 20, 20⟩]
        ([⟨⟨0, 600, 100, 100⟩, 5, 15, false, 0, false⟩] ++
          [⟨⟨450, 450, 100, 100⟩, 10, 0, true, 2, false⟩]) 5 =
      ([⟨⟨0, 600, 100, 100⟩, 5, 15, false, 0, false⟩,
        ⟨⟨450, 440, 100, 100⟩, 10, 0, true, 2, true⟩], 8) := by
  have h := (balloon_overlap_pop_increment 0 10 [⟨500, 500, 20, 20⟩]
      [⟨⟨0, 600, 100, 100⟩, 5, 15, false, 0, false⟩] []
      ⟨⟨450, 450, 100, 100⟩, 10, 0, true, 2, false⟩ 5
      (by decide) (by decide) (by decide) (by decide)).2.2 rfl (by decide)
  have h2 : (processBalloons 0 10 [⟨500, 500, 20, 20⟩]
      ([⟨⟨0, 600, 100, 100⟩, 5, 15, false, 0, false⟩] ++
        [⟨⟨450, 450, 100, 100⟩, 10, 0, true, 2, false⟩]) 5).1 =
      [⟨⟨0, 600, 100, 100⟩, 5, 15, false, 0, false⟩,
        ⟨⟨450, 440, 100, 100⟩, 10, 0, true, 2, true⟩] := by decide
  exact Prod.ext h2 h

theorem pongVerticalBounce_keeps (field : Rect) (s : PongState) :
    (pongVerticalBounce field s).ballX = s.ballX ∧
    (pongVerticalBounce field s).ballY = s.ballY ∧
    (pongVerticalBounce field s).player1Score = s.player1Score ∧
    (pongVerticalBounce field s).player2Score = s.player2Score ∧
    (pongVerticalBounce field s).paddle1X = s.paddle1X ∧
    (pongVerticalBounce field s).paddle1Y = s.paddle1Y ∧
    (pongVerticalBounce field s).paddle2X = s.paddle2X ∧
    (pongVerticalBounce field s).paddle2Y = s.paddle2Y := by
  rw [pongVerticalBounce]
  split_ifs <;> exact ⟨rfl, rfl, rfl, rfl, rfl, rfl, rfl, rfl⟩

theorem pongPaddleBounce_of_not_collide (s : PongState)
    (hp1 : Rect.colliderect ⟨s.paddle1X, s.paddle1Y, paddleWidth, paddleHeight⟩
        ⟨s.ballX, s.ballY, ballRaduis, ballRaduis⟩ = false)
    (hp2 : Rect.colliderect ⟨s.paddle2X, s.paddle2Y, paddleWidth, paddleHeight⟩
        ⟨s.ballX, s.ballY, ballRaduis, ballRaduis⟩ = false) :
    pongPaddleBounce s = s := by
  simp only [pongPaddleBounce, hp1, hp2, Bool.false_eq_true, if_false]

theorem pongPaddleUpdate_default (field : Rect) (scaleY : ℚ) (transY : Int)
    (s : PongState) :
    pongPaddleUpdate field scaleY transY defaultHandData defaultHandData s = s := by
  have hL : ¬ (defaultHandData.side = "left" ∧ defaultHandData.lms ≠ []) := by
    intro h
    exact absurd h.1 (by decide)
  have hR : ¬ (defaultHandData.side = "right" ∧ defaultHandData.lms ≠ []) := by
    intro h
    exact absurd h.1 (by decide)
  simp only [pongPaddleUpdate, hL, hR, if_false]

/-- C2: in Pong (configured with `max_score = 1`, gui.py:1599), when the
ball crosses the left edge of the play field on a tick — post-move
`ball_x <= play_field_rect.left + ball_raduis`, with no paddle struck,
no hand detection this frame, and the speed-ramp timer not firing —
player 2 is awarded exactly one point from the 0–0 start, the ball is
reset to the play-field center with each new velocity component drawn
from {-7, +7}, the round-over test fires (Playing to GameOver), and the
game-over screen headline is "Player 2 wins" (gui.py:1885-1901,
2077-2081, 2095, 2143-2144). -/
theorem pong_left_exit_scores_player2
    (field : Rect) (scaleY : ℚ) (transY : Int) (vxNeg vyNeg : Bool) (s : PongState)
    (h1 : s.player1Score = 0) (h2 : s.player2Score = 0)
    (hexit : s.ballX + s.ballSpeedX ≤ field.left + ballRaduis)
    (hp1 : Rect.colliderect ⟨s.paddle1X, s.paddle1Y, paddleWidth, paddleHeight⟩
        ⟨s.ballX + s.ballSpeedX, s.ballY + s.ballSpeedY, ballRaduis, ballRaduis⟩ = false)
    (hp2 : Rect.colliderect ⟨s.paddle2X, s.paddle2Y, paddleWidth, paddleHeight⟩
        ⟨s.ballX + s.ballSpeedX, s.ballY + s.ballSpeedY, ballRaduis, ballRaduis⟩ = false) :
    (pongTick field scaleY transY defaultHandData defaultHandData false vxNeg vyNeg
        s).player2Score = 1 ∧
    (pongTick field scaleY transY defaultHandData defaultHandData false vxNeg vyNeg
        s).player1Score = 0 ∧
    (pongTick field scaleY transY defaultHandData defaultHandData false vxNeg vyNeg
        s).ballX = field.centerx ∧
    (pongTick field scaleY transY defaultHandData defaultHandData false vxNeg vyNeg
        s).ballY = field.centery ∧
    ((pongTick field scaleY transY defaultHandData defaultHandData false vxNeg vyNeg
        s).ballSpeedX = -7 ∨
      (pongTick field scaleY transY defaultHandData defaultHandData false vxNeg vyNeg
        s).ballSpeedX = 7) ∧
    ((pongTick field scaleY transY defaultHandData defaultHandData false vxNeg vyNeg
        s).ballSpeedY = -7 ∨
      (pongTick field scaleY transY defaultHandData defaultHandData false vxNeg vyNeg
        s).ballSpeedY = 7) ∧
    pongRoundOver (pongTick field scaleY transY defaultHandData defaultHandData false
        vxNeg vyNeg s) = true ∧
    pongWinnerText (pongTick field scaleY transY defaultHandData defaultHandData false
        vxNeg vyNeg s) = "Player 2 wins" := by
  obtain ⟨k1, k2, k3, k4, k5, k6, k7, k8⟩ :=
    pongVerticalBounce_keeps field (pongIntegrate s)
  have hp1t : Rect.colliderect
      ⟨(pongVerticalBounce field (pongIntegrate s)).paddle1X,
        (pongVerticalBounce field (pongIntegrate s)).paddle1Y,
        paddleWidth, paddleHeight⟩
      ⟨(pongVerticalBounce field (pongIntegrate s)).ballX,
        (pongVerticalBounce field (pongIntegrate s)).ballY,
        ballRaduis, ballRaduis⟩ = false := by
    rw [k5, k6, k1, k2]
    exact hp1
  have hp2t : Rect.colliderect
      ⟨(pongVerticalBounce field (pongIntegrate s)).paddle2X,
        (pongVerticalBounce field (pongIntegrate s)).paddle2Y,
        paddleWidth, paddleHeight⟩
      ⟨(pongVerticalBounce field (pongIntegrate s)).ballX,
        (pongVerticalBounce field (pongIntegrate s)).ballY,
        ballRaduis, ballRaduis⟩ = false := by
    rw [k7, k8, k1, k2]
    exact hp2
  have hfin : pongTick field scaleY transY defaultHandData defaultHandData false
      vxNeg vyNeg s =
      pongGoals field vxNeg vyNeg (pongVerticalBounce field (pongIntegrate s)) := by
    rw [pongTick, pongPaddleUpdate_default, pongBallStep,
      show pongRamp false s = s from rfl,
      pongPaddleBounce_of_not_collide _ hp1t hp2t]
  have hcond : (pongVerticalBounce field (pongIntegrate s)).ballX ≤
      field.left + ballRaduis := by
    rw [k1]
    exact hexit
  have hgoal : pongGoals field vxNeg vyNeg (pongVerticalBounce field (pongIntegrate s)) =
      ⟨field.centerx, field.centery,
        (if vxNeg then -7 else 7), (if vyNeg then -7 else 7),
        (pongVerticalBounce field (pongIntegrate s)).paddle1Y,
        (pongVerticalBounce field (pongIntegrate s)).paddle2Y,
        (pongVerticalBounce field (pongIntegrate s)).paddle1X,
        (pongVerticalBounce field (pongIntegrate s)).paddle2X,
        (pongVerticalBounce field (pongIntegrate s)).player1Score,
        (pongVerticalBounce field (pongIntegrate s)).player2Score + 1⟩ := by
    rw [pongGoals, if_pos hcond]
  have hs2 : (pongVerticalBounce field (pongIntegrate s)).player2Score = 0 := by
    rw [k4]
    exact h2
  have hs1 : (pongVerticalBounce field (pongIntegrate s)).player1Score = 0 := by
    rw [k3]
    exact h1
  rw [hfin, hgoal]
  refine ⟨?_, ?_, rfl, rfl, ?_, ?_, ?_, ?_⟩
  · show (pongVerticalBounce field (pongIntegrate s)).player2Score + 1 = 1
    omega
  · exact hs1
  · cases vxNeg <;> simp
  · cases vyNeg <;> simp
  · show pongRoundOver _ = true
    simp [pongRoundOver, hs1, hs2, maxScore]
  · show pongWinnerText _ = "Player 2 wins"
    norm_num [pongWinnerText, pongWinner, hs1, maxScore]
    rfl

/-- C2 (witness): a concrete left exit at 0–0 with `vxNeg` true and
`vyNeg` false. -/
theorem pong_left_exit_scores_player2_witness :
    (pongTick ⟨100, 100, 600, 400⟩ 1 0 defaultHandData defaultHandData false true false
        ⟨110, 300, -7, 7, 450, 450, 110, 580, 0, 0⟩).player2Score = 1 ∧
    pongWinnerText (pongTick ⟨100, 100, 600, 400⟩ 1 0 defaultHandData defaultHandData
        false true false ⟨110, 300, -7, 7, 450, 450, 110, 580, 0, 0⟩) = "Player 2 wins" :=
  ⟨(pong_left_exit_scores_player2 ⟨100, 100, 600, 400⟩ 1 0 true false
      ⟨110, 300, -7, 7, 450, 450, 110, 580, 0, 0⟩ rfl rfl (by decide) (by decide)
      (by decide)).1,
    (pong_left_exit_scores_player2 ⟨100, 100, 600, 400⟩ 1 0 true false
      ⟨110, 300, -7, 7, 450, 450, 110, 580, 0, 0⟩ rfl rfl (by decide) (by decide)
      (by decide)).2.2.2.2.2.2.2⟩

theorem dino_land_cast (zc zw : Int) (h : zc + (zw + 6) ≥ 0) :
    (0 : ℚ) ≤ (zc : ℚ) + ((zw : ℚ) + 6) := by
  exact_mod_cast h

theorem dino_land_cast_not (zc zw : Int) (h : ¬ zc + (zw + 6) ≥ 0) :
    ¬ (0 : ℚ) ≤ (zc : ℚ) + ((zw : ℚ) + 6) := by
  intro hq
  exact h (by exact_mod_cast hq)

/-- `Dino.update` with jump input and no duck input agrees with the
integer-scaled mirror through `dinoEmbedTen`. -/
theorem dino_update_embedTen (y0 : ℚ) (t : DinoOffsetTen) :
    Dino.update true false (dinoEmbedTen y0 t) =
      dinoEmbedTen y0 (dinoOffsetUpdateTen true false t) := by
  rcases t with ⟨c, v, jm, dk⟩
  cases jm <;>
    simp only [Dino.update, dinoOffsetUpdateTen, dinoEmbedTen, dinoGravity,
      Bool.and_true, Bool.and_false, Bool.true_and, Bool.false_and,
      Bool.not_true, Bool.not_false, Bool.and_self, Bool.false_eq_true,
      Bool.true_eq_false, if_true, if_false, reduceIte]
  · by_cases hz : c + (-150 + 6) ≥ 0
    · have hq : y0 + (c : ℚ) / 10 + (-15 + 3 / 5) ≥ y0 := by
        have := dino_land_cast c (-150) hz
        push_cast at this
        linarith
      rw [if_pos hq, if_pos hz]
      simp
    · have hq : ¬ y0 + (c : ℚ) / 10 + (-15 + 3 / 5) ≥ y0 := by
        have := dino_land_cast_not c (-150) hz
        push_cast at this
        intro hcon
        exact this (by linarith)
      rw [if_neg hq, if_neg hz]
      congr 1 <;> push_cast <;> ring
  · by_cases hz : c + (v + 6) ≥ 0
    · have hq : y0 + (c : ℚ) / 10 + ((v : ℚ) / 10 + 3 / 5) ≥ y0 := by
        have := dino_land_cast c v hz
        linarith
      rw [if_pos hq, if_pos hz]
      simp
    · have hq : ¬ y0 + (c : ℚ) / 10 + ((v : ℚ) / 10 + 3 / 5) ≥ y0 := by
        have := dino_land_cast_not c v hz
        intro hcon
        exact this (by linarith)
      rw [if_neg hq, if_neg hz]
      congr 1 <;> push_cast <;> ring

theorem dino_iterate_embedTen (y0 : ℚ) (t : DinoOffsetTen) (n : Nat) :
    (Dino.update true false)^[n] (dinoEmbedTen y0 t) =
      dinoEmbedTen y0 ((dinoOffsetUpdateTen true false)^[n] t) := by
  induction n generalizing t with
  | zero => rfl
  | succ n ih =>
      rw [Function.iterate_succ_apply, Function.iterate_succ_apply,
        dino_update_embedTen, ih]

set_option maxRecDepth 4000 in
/-- The full flight in the integer-scaled mirror: 49 ticks with the jump
input held return the character exactly to the baseline, grounded. -/
theorem dino_flightTen :
    ((dinoOffsetUpdateTen true false)^[49] ⟨0, 0, false, false⟩ : DinoOffsetTen) =
      ⟨0, 0, false, false⟩ := by
  decide

set_option maxRecDepth 8000 in
theorem dino_flightTen_airborne :
    ∀ k, k < 49 → 0 < k →
      ((dinoOffsetUpdateTen true false)^[k]
        (⟨0, 0, false, false⟩ : DinoOffsetTen)).jumping = true := by
  decide

/-- C8: a jump input received while the runner character is grounded
sets `velocity_y = -15`, gravity 0.6 is added every tick, the character
stays airborne for ticks 1..48, and on the 49th update its vertical
position returns exactly to the pre-jump resting baseline
(`pos_y_initial`) and the airborne flag clears (the landing clamp at
dino_game.py:309-312 makes the return exact); a jump input received
while airborne changes nothing relative to no jump input (the guard
`jump_input and not self.jumping`, dino_game.py:296). -/
theorem dino_jump_returns_to_baseline :
    (∀ y0 : ℚ,
      ((Dino.update true false)^[49] ⟨y0, y0, 0, false, false⟩).y = y0 ∧
      ((Dino.update true false)^[49] ⟨y0, y0, 0, false, false⟩).jumping = false ∧
      (∀ k, k < 49 → 0 < k →
        ((Dino.update true false)^[k] ⟨y0, y0, 0, false, false⟩).jumping = true)) ∧
    (∀ (s : DinoState) (d : Bool), s.jumping = true →
      Dino.update true d s = Dino.update false d s) := by
  have hinit : ∀ y0 : ℚ, (⟨y0, y0, 0, false, false⟩ : DinoState) =
      dinoEmbedTen y0 ⟨0, 0, false, false⟩ := by
    intro y0
    simp [dinoEmbedTen]
  constructor
  · intro y0
    refine ⟨?_, ?_, ?_⟩
    · rw [hinit, dino_iterate_embedTen, dino_flightTen]
      show y0 + ((0 : Int) : ℚ) / 10 = y0
      norm_num
    · rw [hinit, dino_iterate_embedTen, dino_flightTen]
      rfl
    · intro k hk hpos
      rw [hinit, dino_iterate_embedTen]
      exact dino_flightTen_airborne k hk hpos
  · intro s d hs
    simp [Dino.update, hs]

/-- C8 (witness): the flight from baseline 7, airborne at tick 3, and
the airborne-jump-is-ignored part at a concrete airborne state. -/
theorem dino_jump_returns_to_baseline_witness :
    ((Dino.update true false)^[49] ⟨7, 7, 0, false, false⟩).y = 7 ∧
    ((Dino.update true false)^[3] ⟨7, 7, 0, false, false⟩).jumping = true ∧
    Dino.update true true ⟨5, 9, -2, true, false⟩ =
      Dino.update false true ⟨5, 9, -2, true, false⟩ :=
  ⟨(dino_jump_returns_to_baseline.1 7).1,
    (dino_jump_returns_to_baseline.1 7).2.2 3 (by norm_num) (by norm_num),
    dino_jump_returns_to_baseline.2 ⟨5, 9, -2, true, false⟩ true rfl⟩

/-- C10: in `HandTrackingDynamic.findPosition`
(mediapipe_hand_tracking.py:85-92), a detected hand is labelled
`"left"` (slot 0) exactly when its bounding-box center x is strictly
below `size_frame // 2`, `"right"` (slot 1) exactly when strictly above,
and a hand whose center x equals `size_frame // 2` fills neither slot;
for such a frame both returned slots keep the `"nth"` default, so the
Pong paddle update (gui.py:1816-1847) moves neither paddle and the whole
state is unchanged. -/
theorem hand_side_labelling
    (sizeFrame : Int) (lms : List (Int × Int)) (slots : HandData × HandData)
    (field : Rect) (scaleY : ℚ) (transY : Int) (s : PongState) :
    (handCenterX lms < sizeFrame.fdiv 2 →
      assignHand sizeFrame slots lms =
        (⟨lms, (handCenterX lms, handCenterY lms), "left"⟩, slots.2)) ∧
    (sizeFrame.fdiv 2 < handCenterX lms →
      assignHand sizeFrame slots lms =
        (slots.1, ⟨lms, (handCenterX lms, handCenterY lms), "right"⟩)) ∧
    (handCenterX lms = sizeFrame.fdiv 2 →
      assignHand sizeFrame slots lms = slots ∧
      findPosition sizeFrame [lms] = (defaultHandData, defaultHandData) ∧
      pongPaddleUpdate field scaleY transY defaultHandData defaultHandData s = s) := by
  refine ⟨?_, ?_, ?_⟩
  · intro h
    simp only [assignHand]
    rw [if_pos h]
  · intro h
    simp only [assignHand]
    rw [if_neg (by omega), if_pos h]
  · intro h
    have hassign : ∀ sl : HandData × HandData, assignHand sizeFrame sl lms = sl := by
      intro sl
      simp only [assignHand]
      rw [if_neg (by omega), if_neg (by omega)]
    refine ⟨hassign slots, ?_, pongPaddleUpdate_default field scaleY transY s⟩
    simp only [findPosition, maxHands, List.take, List.foldl_cons, List.foldl_nil]
    exact hassign (defaultHandData, defaultHandData)

/-- C10 (witness): frame width 10 (integer half 5): a hand centered at
x = 2 is labelled left, one at x = 8 right, and one exactly at x = 5
fills neither slot, leaving the Pong state unchanged. -/
theorem hand_side_labelling_witness :
    assignHand 10 (defaultHandData, defaultHandData) [(2, 3)] =
      (⟨[(2, 3)], (2, 3), "left"⟩, defaultHandData) ∧
    assignHand 10 (defaultHandData, defaultHandData) [(8, 1)] =
      (defaultHandData, ⟨[(8, 1)], (8, 1), "right"⟩) ∧
    findPosition 10 [[(5, 0)]] = (defaultHandData, defaultHandData) ∧
    pongPaddleUpdate ⟨100, 100, 600, 400⟩ 1 0 defaultHandData defaultHandData
        ⟨110, 300, -7, 7, 450, 450, 110, 580, 0, 0⟩ =
      ⟨110, 300, -7, 7, 450, 450, 110, 580, 0, 0⟩ :=
  ⟨(hand_side_labelling 10 [(2, 3)] (defaultHandData, defaultHandData)
      ⟨100, 100, 600, 400⟩ 1 0 ⟨110, 300, -7, 7, 450, 450, 110, 580, 0, 0⟩).1
      (by decide),
    (hand_side_labelling 10 [(8, 1)] (defaultHandData, defaultHandData)
      ⟨100, 100, 600, 400⟩ 1 0 ⟨110, 300, -7, 7, 450, 450, 110, 580, 0, 0⟩).2.1
      (by decide),
    ((hand_side_labelling 10 [(5, 0)] (defaultHandData, defaultHandData)
      ⟨100, 100, 600, 400⟩ 1 0 ⟨110, 300, -7, 7, 450, 450, 110, 580, 0, 0⟩).2.2
      (by decide)).2.1,
    ((hand_side_labelling 10 [(5, 0)] (defaultHandData, defaultHandData)
      ⟨100, 100, 600, 400⟩ 1 0 ⟨110, 300, -7, 7, 450, 450, 110, 580, 0, 0⟩).2.2
      (by decide)).2.2⟩
